import Mathlib

/-!
Verification development for the `livestream-to-icecast` repository.

The Python sources under `src/livestream_to_icecast/` are shallowly embedded
below.  Pure helpers become Lean functions; the supervision loop
`_monitor_stream` in `app.py` becomes an explicit step function over a state
type, driven by an oracle that supplies the outcomes of the external
collaborators (liveness checks, stream-info acquisition, process polling,
URL reachability).  Machine-level details (actual HTTP calls, real process
spawning) are represented by emitted action labels.
-/

namespace Livestream

/-- Embeds `StreamInfo` from `yt_dlp_helper.py` (lines 22-25). -/
structure StreamInfo where
  title : String
  m3u8_url : String
  deriving DecidableEq, Repr

/-- Embeds `IcecastConfig` from `config.py` (lines 42-48). -/
structure IcecastConfig where
  host : String
  port : Int
  mount : String
  source_user : String
  source_password : String
  deriving DecidableEq, Repr

/-- Embeds `AudioConfig` from `config.py` (lines 51-54). -/
structure AudioConfig where
  codec : String := "libmp3lame"
  bitrate : String := "128k"
  deriving DecidableEq, Repr

/-- Embeds `AzuraCastConfig` from `config.py` (lines 57-62). -/
structure AzuraCastConfig where
  api_url : String
  bearer_token : String
  station : String := ""
  mount : String := ""
  deriving DecidableEq, Repr

/-- Embeds `AppConfig` from `config.py` (lines 66-74).  Note: the dataclass
has NO `channel_name` field, although `app.py` lines 181 and 245 read
`cfg.channel_name` and the repository's own tests assert its presence. -/
structure AppConfig where
  platform : String
  channel_url : String
  poll_interval : Int
  icecast : IcecastConfig
  audio : AudioConfig
  azuracast : Option AzuraCastConfig := none
  azuracast_api_key : String := ""
  deriving DecidableEq, Repr

/-! ## yt_dlp_helper.get_stream_info (lines 63-92) -/

/-- One entry of the parsed `info["formats"]` list consumed by
`get_stream_info`; each field mirrors a `fmt.get(...)` access. -/
structure YtFormat where
  protocol : Option String := none
  url : Option String := none
  deriving DecidableEq, Repr

/-- The parsed JSON metadata object consumed by `get_stream_info`; `none`
fields mirror absent keys. -/
structure YtInfo where
  title : Option String := none
  description : Option String := none
  formats : List YtFormat := []
  url : Option String := none
  deriving DecidableEq, Repr

/-- Python truthiness of an optional string: `None` and `""` are falsy. -/
def pyTruthy : Option String → Bool
  | none => false
  | some s => !(s == "")

/-- The `title` local of `get_stream_info` (`yt_dlp_helper.py` lines
74-78): `description` for twitch, `title` for youtube, otherwise the
initial `"LIVE"`; absent keys default to `""`. -/
def si_title (info : YtInfo) (platform : String) : String :=
  if platform == "twitch" then info.description.getD ""
  else if platform == "youtube" then info.title.getD ""
  else "LIVE"

/-- The `m3u8_url` local of `get_stream_info` (lines 80-87): the url of the
first format whose protocol is `"m3u8"` with a truthy url, else the
top-level `url` field as fallback. -/
def si_m3u8 (info : YtInfo) : Option String :=
  match info.formats.find? (fun fmt => fmt.protocol == some "m3u8" && pyTruthy fmt.url) with
  | some fmt => fmt.url
  | none => info.url

/-- Embeds `get_stream_info` from `yt_dlp_helper.py` (lines 63-92).  The
argument `parsed` is `none` when `_run_yt_dlp` or JSON parsing raised (the
`except` branch at lines 90-92 returns `None`); otherwise it is the parsed
metadata.  A result is produced only when both the URL and the title are
truthy (line 88); otherwise the function falls through and returns `None`. -/
def get_stream_info (parsed : Option YtInfo) (platform : String) : Option StreamInfo :=
  match parsed with
  | none => none
  | some info =>
    if pyTruthy (si_m3u8 info) && !(si_title info platform == "") then
      some { title := si_title info platform, m3u8_url := (si_m3u8 info).getD "" }
    else
      none

/-! ## app._cleanup_ffmpeg (lines 54-72) -/

/-- Observable behaviour of one termination attempt on a present process
handle: whether `proc.terminate()` raises, whether the process exits within
the 5-second grace period of `proc.wait(timeout=5)`, and whether
`proc.kill()` raises. -/
structure ProcSpec where
  terminate_raises : Bool := false
  exits_within_grace : Bool := true
  kill_raises : Bool := false
  deriving DecidableEq, Repr

/-- Actions performed by `_cleanup_ffmpeg`. -/
inductive CleanupAct where
  | terminateReq
  | waitGrace (timeout : Nat)
  | killReq
  | logError
  deriving DecidableEq, Repr

/-- The body of the outer `try` in `_cleanup_ffmpeg` (lines 63-70): the
actions performed and the exception (if any) escaping the body.  The inner
`try` catches only `TimeoutExpired` and escalates to `kill`. -/
def cleanup_try_body (p : ProcSpec) : List CleanupAct × Option String :=
  if p.terminate_raises then ([.terminateReq], some "terminate failed")
  else if p.exits_within_grace then ([.terminateReq, .waitGrace 5], none)
  else if p.kill_raises then ([.terminateReq, .waitGrace 5, .killReq], some "kill failed")
  else ([.terminateReq, .waitGrace 5, .killReq], none)

/-- Embeds `_cleanup_ffmpeg` from `app.py` (lines 54-72): `None` handles
return immediately (line 61); for a present handle the body runs under a
catch-all `except Exception` that logs and swallows (lines 71-72).  The
second component is the exception escaping the function. -/
def cleanup_ffmpeg (proc : Option ProcSpec) : List CleanupAct × Option String :=
  match proc with
  | none => ([], none)
  | some p =>
    let r := cleanup_try_body p
    match r.2 with
    | none => (r.1, none)
    | some _ => (r.1 ++ [.logError], none)

/-! ## AzuraCast metadata sync decision (app.py lines 179-192 and 243-258) -/

/-- Calls made by the metadata synchronization block. -/
inductive MetaAction where
  | read
  | update (title artist : String)
  deriving DecidableEq, Repr

/-- The publish condition at `app.py` lines 183-187 / 247-251:
`not current_meta or current_meta.get("title") != new_title or
current_meta.get("artist") != new_artist`. -/
def should_update (current_meta : Option (String × String))
    (new_title new_artist : String) : Bool :=
  match current_meta with
  | none => true
  | some m => !(m.1 == new_title) || !(m.2 == new_artist)

/-- The metadata synchronization block (`app.py` lines 182-192 / 246-258),
as a list of publisher calls: first `get_current_azuracast_metadata`
(readback), then `update_azuracast_metadata` only when the publish
condition holds.  `current_meta` is the readback result (`none` on
failure). -/
def sync_metadata (current_meta : Option (String × String))
    (new_title new_artist : String) : List MetaAction :=
  .read :: (if should_update current_meta new_title new_artist
            then [.update new_title new_artist] else [])

/-! ## config.load_config (config.py lines 77-145) -/

/-- Parsed `[icecast]` table; `none` fields mirror absent keys. -/
structure IcecastData where
  host : Option String := none
  port : Option Int := none
  mount : Option String := none
  source_user : Option String := none
  source_password : Option String := none
  deriving DecidableEq, Repr

/-- Parsed `[audio]` table. -/
structure AudioData where
  codec : Option String := none
  bitrate : Option String := none
  deriving DecidableEq, Repr

/-- Parsed `[azuracast]` table. -/
structure AzuracastData where
  api_url : Option String := none
  bearer_token : Option String := none
  station : Option String := none
  mount : Option String := none
  deriving DecidableEq, Repr

/-- Parsed TOML document as consumed by `load_config`; `none` fields mirror
absent top-level keys. -/
structure ConfigData where
  platform : Option String := none
  channel_url : Option String := none
  poll_interval : Option Int := none
  icecast : Option IcecastData := none
  audio : Option AudioData := none
  azuracast : Option AzuracastData := none
  deriving DecidableEq, Repr

/-- Python `str.lstrip("/")`: drop every leading slash. -/
def lstripSlash (s : String) : String :=
  String.mk (s.toList.dropWhile (fun c => c == '/'))

/-- Embeds `load_config` from `config.py` (lines 77-145).  The required
top-level keys are `platform`, `channel_url`, `poll_interval`, `icecast`
(line 104); each icecast key is checked (lines 110-112); the `[azuracast]`
table, when present and non-empty (Python dict truthiness), must contain
`api_url` and `bearer_token` (lines 118-121).  `poll_interval` is taken via
`int(...)` with NO positivity validation.  Exceptions become `Except.error`. -/
def load_config (d : ConfigData) : Except String AppConfig :=
  match d.platform, d.channel_url, d.poll_interval, d.icecast with
  | some platform, some channel_url, some poll_interval, some ice =>
    if ice.host.isNone then
      Except.error "Icecast configuration missing required key: host"
    else if ice.port.isNone then
      Except.error "Icecast configuration missing required key: port"
    else if ice.mount.isNone then
      Except.error "Icecast configuration missing required key: mount"
    else if ice.source_user.isNone then
      Except.error "Icecast configuration missing required key: source_user"
    else if ice.source_password.isNone then
      Except.error "Icecast configuration missing required key: source_password"
    else
      let audio := d.audio.getD {}
      let azResult : Except String (Option AzuraCastConfig) :=
        match d.azuracast with
        | none => Except.ok none
        | some az =>
          if az.api_url.isNone && az.bearer_token.isNone
              && az.station.isNone && az.mount.isNone then
            Except.ok none
          else if az.api_url.isNone then
            Except.error "Azuracast configuration missing required key: api_url"
          else if az.bearer_token.isNone then
            Except.error "Azuracast configuration missing required key: bearer_token"
          else
            Except.ok (some { api_url := az.api_url.getD "",
                              bearer_token := az.bearer_token.getD "",
                              station := az.station.getD "",
                              mount := az.mount.getD "" })
      match azResult with
      | Except.error e => Except.error e
      | Except.ok azuracast =>
        Except.ok { platform := platform,
                    channel_url := channel_url,
                    poll_interval := poll_interval,
                    icecast := { host := ice.host.getD "",
                                 port := ice.port.getD 0,
                                 mount := lstripSlash (ice.mount.getD ""),
                                 source_user := ice.source_user.getD "",
                                 source_password := ice.source_password.getD "" },
                    audio := { codec := audio.codec.getD "libmp3lame",
                               bitrate := audio.bitrate.getD "128k" },
                    azuracast := azuracast }
  | _, _, _, _ => Except.error "Missing required top-level config keys"

/-- Embeds the config-loading part of `main` (`app.py` lines 295-299): a
load failure is caught and the process exits with status 1 before
`_monitor_stream` is entered; on success no exit happens (supervision
starts). -/
def mainExitStatus (r : Except String AppConfig) : Option Nat :=
  match r with
  | Except.error _ => some 1
  | Except.ok _ => none

/-! ## app._monitor_stream (lines 139-272)

The loop is split into atomic phases at its environment-observation points:
`outer` is the top of the outer `while` (lines 152-192: shutdown check,
liveness poll, stream-info acquisition, metadata sync), `inner1` the top of
the inner `while` (lines 198-209: shutdown check and start-or-reuse of the
process), `inner2` the second shutdown check plus the process poll (lines
211-228), `inner3` the in-loop re-acquisition, metadata sync and
reachability check (lines 230-266), `outerEnd` the pause at line 269.
`finished` is the loop's normal exit; `crashed` marks an exception escaping
`_monitor_stream` (the `AttributeError` raised by `cfg.channel_name` at
lines 181 / 245, since `AppConfig` has no such field).  Each step consumes
one `Oracle` supplying the collaborator outcomes it may observe. -/

/-- Collaborator outcomes observable during one phase of the loop. -/
structure Oracle where
  stop : Bool := false
  live : Bool := false
  acquire : Option StreamInfo := none
  pollExit : Option Int := none
  urlOk : Bool := true
  deriving DecidableEq, Repr

/-- Control position inside `_monitor_stream`. -/
inductive Phase where
  | outer
  | inner1
  | inner2
  | inner3
  | outerEnd
  | finished
  | crashed
  deriving DecidableEq, Repr

/-- Externally visible effects of one step of the loop:
`start pid url` is an `_start_ffmpeg` launch, `terminate pid` a
`_cleanup_ffmpeg` call on a present handle, `updateMeta t a` a call to
`update_azuracast_metadata`. -/
inductive Action where
  | start (pid : Nat) (url : String)
  | terminate (pid : Nat)
  | updateMeta (title artist : String)
  deriving DecidableEq, Repr

/-- State of `_monitor_stream`: `handle` is the global `CURRENT_PROC`,
`running` the set (at most a singleton) of processes that were started and
have been neither observed exited by `poll` nor terminated, `stream_info`
and `stream_url` the local variables of the same names. -/
structure MonState where
  phase : Phase
  handle : Option Nat
  running : List Nat
  nextPid : Nat
  stream_info : Option StreamInfo
  stream_url : String
  deriving DecidableEq, Repr

/-- State on entry to `_monitor_stream`: no process, outer loop top. -/
def initState : MonState :=
  { phase := .outer, handle := none, running := [], nextPid := 0,
    stream_info := none, stream_url := "" }

/-- Actions of a `_cleanup_ffmpeg(handle)` call inside the loop. -/
def cleanupActs : Option Nat → List Action
  | none => []
  | some pid => [.terminate pid]

/-- A terminated or observed-exited process leaves the `running` set. -/
def removeRunning (running : List Nat) : Option Nat → List Nat
  | none => running
  | some pid => running.erase pid

/-- One atomic step of `_monitor_stream` (`app.py` lines 139-272). -/
def step (cfg : AppConfig) (s : MonState) (o : Oracle) : MonState × List Action :=
  match s.phase with
  | .outer =>
    if o.stop then
      -- lines 154-156: break out of the outer loop; line 272: final cleanup
      ({ s with phase := .finished, running := removeRunning s.running s.handle },
        cleanupActs s.handle)
    else if !o.live then
      -- lines 160-165: wait a poll interval and re-check
      (s, [])
    else
      match o.acquire with
      | none =>
        -- lines 170-173: acquisition failed while live; wait and re-check
        (s, [])
      | some info =>
        -- line 176: stream_url := stream_info.m3u8_url
        match cfg.azuracast with
        | some _ =>
          -- lines 179-181: `cfg.channel_name` raises AttributeError
          -- (AppConfig defines no channel_name field); it escapes the loop
          ({ s with phase := .crashed, stream_info := some info,
                    stream_url := info.m3u8_url }, [])
        | none =>
          -- lines 179-192 skipped; enter the inner loop
          ({ s with phase := .inner1, stream_info := some info,
                    stream_url := info.m3u8_url }, [])
  | .inner1 =>
    if o.stop then
      -- lines 198-203: cleanup CURRENT_PROC, publish OFFLINE, return
      ({ s with phase := .finished, running := removeRunning s.running s.handle },
        cleanupActs s.handle ++ [.updateMeta "OFFLINE" "OFFLINE"])
    else
      match s.handle with
      | some _ =>
        -- lines 206-207: reuse the existing handle
        ({ s with phase := .inner2 }, [])
      | none =>
        match s.stream_info with
        | none => ({ s with phase := .crashed }, [])  -- unreachable
        | some si =>
          -- line 209: proc := _start_ffmpeg(stream_info.m3u8_url, cfg)
          ({ s with phase := .inner2, handle := some s.nextPid,
                    running := s.running ++ [s.nextPid],
                    nextPid := s.nextPid + 1 },
            [.start s.nextPid si.m3u8_url])
  | .inner2 =>
    match s.handle with
    | none => ({ s with phase := .crashed }, [])  -- unreachable
    | some pid =>
      if o.stop then
        -- lines 212-214: cleanup the local proc, return (no OFFLINE publish)
        ({ s with phase := .finished, running := s.running.erase pid },
          [.terminate pid])
      else
        match o.pollExit with
        | some _ =>
          -- lines 215-228: exited; publish OFFLINE, clear CURRENT_PROC, break
          ({ s with phase := .outerEnd, handle := none,
                    running := s.running.erase pid },
            [.updateMeta "OFFLINE" "OFFLINE"])
        | none => ({ s with phase := .inner3 }, [])
  | .inner3 =>
    match o.acquire with
    | none =>
      -- lines 232-240: cleanup CURRENT_PROC (handle NOT cleared), publish
      -- OFFLINE, break to the outer loop
      ({ s with phase := .outerEnd, running := removeRunning s.running s.handle },
        cleanupActs s.handle ++ [.updateMeta "OFFLINE" "OFFLINE"])
    | some info =>
      match cfg.azuracast with
      | some _ =>
        -- line 245: `cfg.channel_name` raises AttributeError
        ({ s with phase := .crashed }, [])
      | none =>
        -- line 259: stream_info := new_stream_info (stream_url unchanged);
        -- line 261: check_m3u8_url(stream_url)
        if !o.urlOk then
          -- lines 262-265: cleanup, clear CURRENT_PROC, continue inner loop
          ({ s with phase := .inner1, handle := none,
                    running := removeRunning s.running s.handle,
                    stream_info := some info }, cleanupActs s.handle)
        else
          -- line 266: wait a poll interval, continue inner loop
          ({ s with phase := .inner1, stream_info := some info }, [])
  | .outerEnd =>
    -- line 269: wait a poll interval, back to the outer loop top
    ({ s with phase := .outer }, [])
  | .finished => (s, [])
  | .crashed => (s, [])

/-- Runs `_monitor_stream` over a list of oracle answers, collecting the
emitted actions. -/
def runLoop (cfg : AppConfig) (s : MonState) : List Oracle → MonState × List Action
  | [] => (s, [])
  | o :: os =>
    let p := step cfg s o
    let q := runLoop cfg p.1 os
    (q.1, p.2 ++ q.2)

/-- The state reached after consuming the oracle list. -/
def runState (cfg : AppConfig) (s : MonState) (os : List Oracle) : MonState :=
  (runLoop cfg s os).1

/-! ## Concrete fixtures used in the theorems below -/

/-- A configuration without an `[azuracast]` block. -/
def cfg0 : AppConfig :=
  { platform := "twitch", channel_url := "https://www.twitch.tv/chan",
    poll_interval := 30,
    icecast := { host := "localhost", port := 8000, mount := "live.mp3",
                 source_user := "src", source_password := "pwd" },
    audio := {} }

/-- A configuration with an `[azuracast]` block. -/
def cfgAz : AppConfig :=
  { cfg0 with azuracast := some { api_url := "https://azura.example.com",
                                  bearer_token := "tok", station := "1" } }

/-- A first stream-info result. -/
def infoA : StreamInfo :=
  { title := "Stream A", m3u8_url := "https://example.com/a.m3u8" }

/-- A second, distinct stream-info result. -/
def infoB : StreamInfo :=
  { title := "Stream B", m3u8_url := "https://example.com/b.m3u8" }

/-- Oracle: channel live, acquisition yields `infoA`. -/
def oAcqA : Oracle := { live := true, acquire := some infoA }

/-- Oracle: channel live, acquisition yields `infoB`. -/
def oAcqB : Oracle := { live := true, acquire := some infoB }

/-- Oracle: nothing special happens; process (if polled) still runs. -/
def oRun : Oracle := { live := true, acquire := some infoA }

/-- Oracle: the process is observed exited with code 1. -/
def oExit : Oracle := { live := true, acquire := some infoA, pollExit := some 1 }

/-- Oracle: the shutdown signal is observed set. -/
def oStop : Oracle := { stop := true }

/-- Oracle: re-acquisition still yields `infoA` but the reachability check
of the session URL fails. -/
def oUrlDead : Oracle := { live := true, acquire := some infoA, urlOk := false }

/-- Oracle: re-acquisition returns nothing. -/
def oNoInfo : Oracle := { live := true }

/-! ## Single-process invariant -/

/-- The `running` set is empty, or a singleton consisting exactly of the
pid held in `CURRENT_PROC`. -/
def SingleProc (s : MonState) : Prop :=
  s.running = [] ∨ ∃ p, s.running = [p] ∧ s.handle = some p

theorem singleProc_init : SingleProc initState := Or.inl rfl

theorem remove_of_single (rn : List Nat) (hd : Option Nat)
    (h : rn = [] ∨ ∃ p, rn = [p] ∧ hd = some p) : removeRunning rn hd = [] := by
  rcases h with h | ⟨p, hr, hh⟩
  · subst h; cases hd <;> rfl
  · subst hr; subst hh; simp [removeRunning]

theorem erase_of_single (rn : List Nat) (hd : Option Nat) (pid : Nat)
    (h : rn = [] ∨ ∃ p, rn = [p] ∧ hd = some p) (hh : hd = some pid) :
    rn.erase pid = [] := by
  rcases h with h | ⟨p, hr, hp⟩
  · subst h; rfl
  · subst hr
    have hpp : p = pid := by
      rw [hp] at hh
      exact Option.some.inj hh
    subst hpp
    simp

theorem singleProc_step (cfg : AppConfig) (s : MonState) (o : Oracle)
    (h : SingleProc s) : SingleProc (step cfg s o).1 := by
  obtain ⟨ph, hd, rn, np, si, su⟩ := s
  obtain ⟨stop, live, acq, pe, ok⟩ := o
  have h' : rn = [] ∨ ∃ p, rn = [p] ∧ hd = some p := h
  cases ph
  case outer =>
    cases stop
    · cases live
      · exact h
      · cases acq with
        | none => exact h
        | some info =>
          cases haz : cfg.azuracast <;> simp only [step, haz] <;> exact h'
    · exact Or.inl (remove_of_single rn hd h')
  case inner1 =>
    cases stop
    · cases hd with
      | none =>
        cases si with
        | none => exact h'
        | some i =>
          rcases h' with hr | ⟨p, hr, hp⟩
          · subst hr; exact Or.inr ⟨np, rfl, rfl⟩
          · exact absurd hp (by simp)
      | some pid => exact h'
    · exact Or.inl (remove_of_single rn hd h')
  case inner2 =>
    cases hd with
    | none => exact h'
    | some pid =>
      cases stop
      · cases pe with
        | none => exact h'
        | some code => exact Or.inl (erase_of_single rn (some pid) pid h' rfl)
      · exact Or.inl (erase_of_single rn (some pid) pid h' rfl)
  case inner3 =>
    cases acq with
    | none => exact Or.inl (remove_of_single rn hd h')
    | some info =>
      cases haz : cfg.azuracast <;> simp only [step, haz]
      · cases ok
        · exact Or.inl (remove_of_single rn hd h')
        · exact h'
      · exact h'
  case outerEnd => exact h'
  case finished => exact h'
  case crashed => exact h'

theorem runState_cons (cfg : AppConfig) (s : MonState) (o : Oracle)
    (os : List Oracle) :
    runState cfg s (o :: os) = runState cfg (step cfg s o).1 os := rfl

theorem singleProc_run (cfg : AppConfig) (s : MonState) (os : List Oracle)
    (h : SingleProc s) : SingleProc (runState cfg s os) := by
  induction os generalizing s with
  | nil => exact h
  | cons o os ih =>
    rw [runState_cons]
    exact ih _ (singleProc_step cfg s o h)

theorem start_requires_empty (cfg : AppConfig) (s : MonState) (o : Oracle)
    (pid : Nat) (url : String) (h : SingleProc s)
    (hmem : Action.start pid url ∈ (step cfg s o).2) : s.running = [] := by
  obtain ⟨ph, hd, rn, np, si, su⟩ := s
  have h' : rn = [] ∨ ∃ p, rn = [p] ∧ hd = some p := h
  obtain ⟨stop, live, acq, pe, ok⟩ := o
  show rn = []
  cases ph
  case outer =>
    cases stop
    · cases live
      · simp [step] at hmem
      · cases acq with
        | none => simp [step] at hmem
        | some info =>
          cases haz : cfg.azuracast <;> simp [step, haz] at hmem
    · cases hd <;> simp [step, cleanupActs, removeRunning] at hmem
  case inner1 =>
    cases stop
    · cases hd with
      | none =>
        cases si with
        | none => simp [step] at hmem
        | some i =>
          rcases h' with hr | ⟨p, hr, hp⟩
          · exact hr
          · exact absurd hp (by simp)
      | some pid2 => simp [step] at hmem
    · cases hd <;> simp [step, cleanupActs, removeRunning] at hmem
  case inner2 =>
    cases hd with
    | none => simp [step] at hmem
    | some pid2 =>
      cases stop
      · cases pe with
        | none => simp [step] at hmem
        | some code => simp [step] at hmem
      · simp [step] at hmem
  case inner3 =>
    cases acq with
    | none => cases hd <;> simp [step, cleanupActs, removeRunning] at hmem
    | some info =>
      cases haz : cfg.azuracast
      · cases ok
        · cases hd <;> simp [step, haz, cleanupActs, removeRunning] at hmem
        · simp [step, haz] at hmem
      · simp [step, haz] at hmem
  case outerEnd => simp [step] at hmem
  case finished => simp [step] at hmem
  case crashed => simp [step] at hmem

theorem pyTruthy_getD (m : Option String) (h : pyTruthy m = true) :
    m.getD "" ≠ "" := by
  cases m with
  | none => simp [pyTruthy] at h
  | some s => simpa [pyTruthy] using h

/-! ## Claim theorems -/

/-- C1 (code bug): the supervision loop has no same-URL retry state at all.
On the very first exit of the transcoding process (started on URL a) the
loop clears the handle, publishes OFFLINE, breaks to the outer loop, and
the next launch uses a freshly fetched URL (here b): the first exit, not
the (N+1)-th, already triggers a fresh-URL fetch, and no 2-unit backoff or
same-URL restart ever happens, contradicting the retries_left policy that
the code's own docstrings (app.py lines 12-14 and 146-148) describe. -/
theorem c1_first_exit_fetches_fresh_url :
    (runLoop cfg0 initState [oAcqA, oRun, oExit, oRun, oAcqB, oRun]).2 =
      [Action.start 0 "https://example.com/a.m3u8",
       Action.updateMeta "OFFLINE" "OFFLINE",
       Action.start 1 "https://example.com/b.m3u8"] := by decide

/-- C2 counterexample: after process 0 on URL a exits, the outer loop
re-acquires; the freshly fetched URL equals the one that just failed, and
the loop launches it again (process 1 on the same URL a) — no URL-equality
check exists, so an equal fresh URL does lead to another launch. -/
theorem c2_counterexample_same_url_relaunched :
    (runLoop cfg0 initState [oAcqA, oRun, oExit, oRun, oAcqA, oRun]).2 =
      [Action.start 0 "https://example.com/a.m3u8",
       Action.updateMeta "OFFLINE" "OFFLINE",
       Action.start 1 "https://example.com/a.m3u8"] := by decide

/-- C2 (amended): when re-acquisition returns nothing the loop does end the
session — at the outer loop it keeps awaiting liveness without starting
anything, and at the in-loop re-acquisition it terminates the process,
publishes OFFLINE and breaks back to the outer liveness wait; but no
equality check against the previous URL is performed anywhere. -/
theorem c2_amended_no_url_ends_session (cfg : AppConfig) (s : MonState)
    (o : Oracle) :
    (s.phase = Phase.outer → o.stop = false → o.acquire = none →
      (step cfg s o).1.phase = Phase.outer ∧ (step cfg s o).2 = []) ∧
    (∀ pid, s.phase = Phase.inner3 → s.handle = some pid → o.acquire = none →
      (step cfg s o).1.phase = Phase.outerEnd ∧
      (step cfg s o).2 = [Action.terminate pid,
                          Action.updateMeta "OFFLINE" "OFFLINE"] ∧
      (∀ o2, (step cfg (step cfg s o).1 o2).1.phase = Phase.outer)) := by
  obtain ⟨ph, hd, rn, np, si, su⟩ := s
  obtain ⟨stop, live, acq, pe, ok⟩ := o
  constructor
  · intro hph hstop hacq
    cases hph
    cases hstop
    cases hacq
    cases live <;> exact ⟨rfl, rfl⟩
  · intro pid hph hh hacq
    cases hph
    cases hh
    cases hacq
    exact ⟨rfl, rfl, fun o2 => rfl⟩

/-- C2 amended, instantiated: in the concrete reachable in-loop state with
process 0 running, a failed re-acquisition terminates the process,
publishes OFFLINE, and the loop is back at the liveness wait. -/
theorem c2_amended_witness :
    (step cfg0 (runState cfg0 initState [oAcqA, oRun, oRun]) oNoInfo).1.phase =
        Phase.outerEnd ∧
    (step cfg0 (runState cfg0 initState [oAcqA, oRun, oRun]) oNoInfo).2 =
      [Action.terminate 0, Action.updateMeta "OFFLINE" "OFFLINE"] ∧
    (∀ o2, (step cfg0
        (step cfg0 (runState cfg0 initState [oAcqA, oRun, oRun]) oNoInfo).1
        o2).1.phase = Phase.outer) :=
  (c2_amended_no_url_ends_session cfg0
    (runState cfg0 initState [oAcqA, oRun, oRun]) oNoInfo).2 0
    (by decide) (by decide) rfl

/-- C3 counterexample: the shutdown signal is observed at the post-start
check (app.py line 212) while process 0 is active; the process is
terminated and the loop exits, but ZERO offline publishes are attempted —
refuting the claim that exactly one offline publish happens on every
shutdown-observation point. -/
theorem c3_counterexample_shutdown_without_offline :
    (runLoop cfg0 initState [oAcqA, oRun, oStop]).1.phase = Phase.finished ∧
    (runLoop cfg0 initState [oAcqA, oRun, oStop]).2 =
      [Action.start 0 "https://example.com/a.m3u8", Action.terminate 0] := by
  decide

/-- C3 (amended): on every shutdown-observation point the loop exits and an
active process receives a terminate call; but the offline publish is
attempted exactly once only when shutdown is observed at the top of the
inner loop (line 198) — the outer-loop check (line 154) and the post-start
check (line 212) exit with zero offline publish attempts. -/
theorem c3_amended_shutdown_paths (cfg : AppConfig) (s : MonState) (o : Oracle)
    (hstop : o.stop = true) :
    (s.phase = Phase.outer →
      (step cfg s o).1.phase = Phase.finished ∧
      (step cfg s o).2.count (Action.updateMeta "OFFLINE" "OFFLINE") = 0 ∧
      (∀ pid, s.handle = some pid → Action.terminate pid ∈ (step cfg s o).2)) ∧
    (s.phase = Phase.inner1 →
      (step cfg s o).1.phase = Phase.finished ∧
      (step cfg s o).2.count (Action.updateMeta "OFFLINE" "OFFLINE") = 1 ∧
      (∀ pid, s.handle = some pid → Action.terminate pid ∈ (step cfg s o).2)) ∧
    (∀ pid, s.phase = Phase.inner2 → s.handle = some pid →
      (step cfg s o).1.phase = Phase.finished ∧
      (step cfg s o).2.count (Action.updateMeta "OFFLINE" "OFFLINE") = 0 ∧
      Action.terminate pid ∈ (step cfg s o).2) := by
  obtain ⟨ph, hd, rn, np, si, su⟩ := s
  obtain ⟨stop, live, acq, pe, ok⟩ := o
  cases hstop
  refine ⟨?_, ?_, ?_⟩
  · intro hph
    cases hph
    refine ⟨rfl, ?_, ?_⟩
    · cases hd <;> simp [step, cleanupActs]
    · intro pid hh
      cases hh
      simp [step, cleanupActs]
  · intro hph
    cases hph
    refine ⟨rfl, ?_, ?_⟩
    · cases hd <;> simp [step, cleanupActs]
    · intro pid hh
      cases hh
      simp [step, cleanupActs]
  · intro pid hph hh
    cases hph
    cases hh
    exact ⟨rfl, by simp [step], by simp [step]⟩

/-- C3 amended, instantiated: shutdown observed at the top of the inner
loop in a concrete reachable state publishes OFFLINE exactly once. -/
theorem c3_amended_witness :
    (step cfg0 (runState cfg0 initState [oAcqA]) oStop).1.phase =
        Phase.finished ∧
    (step cfg0 (runState cfg0 initState [oAcqA]) oStop).2.count
        (Action.updateMeta "OFFLINE" "OFFLINE") = 1 ∧
    (∀ pid, (runState cfg0 initState [oAcqA]).handle = some pid →
      Action.terminate pid ∈
        (step cfg0 (runState cfg0 initState [oAcqA]) oStop).2) :=
  (c3_amended_shutdown_paths cfg0 (runState cfg0 initState [oAcqA]) oStop
    rfl).2.1 (by decide)

/-- C4: in every state that the supervision loop reaches, at most one
started process remains neither observed-exited nor terminated, and an
`_start_ffmpeg` launch is emitted only when that set is empty — every
previously started process was first confirmed gone, either by the
non-blocking `poll` at line 215 observing its exit or by a
`_cleanup_ffmpeg` terminate call. -/
theorem c4_single_process_invariant (cfg : AppConfig) (os : List Oracle) :
    (runState cfg initState os).running.length ≤ 1 ∧
    (∀ o pid url, Action.start pid url ∈ (step cfg (runState cfg initState os) o).2 →
      (runState cfg initState os).running = []) := by
  have h := singleProc_run cfg initState os singleProc_init
  constructor
  · rcases h with hr | ⟨p, hp, _⟩
    · rw [hr]; simp
    · rw [hp]; simp
  · intro o pid url hmem
    exact start_requires_empty cfg _ o pid url h hmem

/-- C4, instantiated: the concrete start of process 0 happens from a state
whose possibly-live set is empty. -/
theorem c4_single_process_witness :
    (runState cfg0 initState [oAcqA]).running = [] :=
  (c4_single_process_invariant cfg0 [oAcqA]).2 oRun 0
    "https://example.com/a.m3u8" (by decide)

/-- C5 counterexample: process 0 runs on URL a; the periodic reachability
check of that URL fails; the loop terminates process 0 but then CONTINUES
the inner loop and relaunches the same URL a as process 1 — it does not
proceed to the no-URL / session-ended branch. -/
theorem c5_counterexample_relaunch_after_dead_url :
    (runLoop cfg0 initState [oAcqA, oRun, oRun, oUrlDead, oRun]).2 =
      [Action.start 0 "https://example.com/a.m3u8",
       Action.terminate 0,
       Action.start 1 "https://example.com/a.m3u8"] := by decide

/-- C5 (amended): while the process is healthy the session's original URL
is periodically re-checked; on a failed check the loop terminates the
process and clears the handle, but instead of ending the session it
continues the inner loop and relaunches the most recently acquired URL
(which may equal the dead one) on the next iteration. -/
theorem c5_amended_reachability_failure_relaunches (cfg : AppConfig)
    (s : MonState) (o : Oracle) (pid : Nat) (info : StreamInfo)
    (hph : s.phase = Phase.inner3) (hh : s.handle = some pid)
    (haz : cfg.azuracast = none) (hacq : o.acquire = some info)
    (hok : o.urlOk = false) :
    (step cfg s o).2 = [Action.terminate pid] ∧
    (step cfg s o).1.phase = Phase.inner1 ∧
    (step cfg s o).1.handle = none ∧
    (step cfg s o).1.stream_info = some info ∧
    (∀ o2, o2.stop = false →
      Action.start (step cfg s o).1.nextPid info.m3u8_url ∈
        (step cfg (step cfg s o).1 o2).2) := by
  obtain ⟨ph, hd, rn, np, si, su⟩ := s
  obtain ⟨stop, live, acq, pe, ok⟩ := o
  cases hph
  cases hh
  cases hacq
  cases hok
  simp only [step, haz]
  refine ⟨rfl, rfl, rfl, rfl, ?_⟩
  intro o2 hstop2
  obtain ⟨stop2, live2, acq2, pe2, ok2⟩ := o2
  cases hstop2
  simp [step]

/-- C5 amended, instantiated: in the concrete reachable in-loop state with
process 0 running on URL a, a failed reachability check terminates it and
the next iteration starts process 1 on the same URL a. -/
theorem c5_amended_witness :
    (step cfg0 (runState cfg0 initState [oAcqA, oRun, oRun]) oUrlDead).2 =
      [Action.terminate 0] ∧
    (step cfg0 (runState cfg0 initState [oAcqA, oRun, oRun]) oUrlDead).1.phase =
      Phase.inner1 ∧
    (step cfg0 (runState cfg0 initState [oAcqA, oRun, oRun]) oUrlDead).1.handle =
      none ∧
    (step cfg0 (runState cfg0 initState [oAcqA, oRun, oRun]) oUrlDead).1.stream_info =
      some infoA ∧
    (∀ o2, o2.stop = false →
      Action.start
        (step cfg0 (runState cfg0 initState [oAcqA, oRun, oRun]) oUrlDead).1.nextPid
        infoA.m3u8_url ∈
        (step cfg0
          (step cfg0 (runState cfg0 initState [oAcqA, oRun, oRun]) oUrlDead).1
          o2).2) :=
  c5_amended_reachability_failure_relaunches cfg0
    (runState cfg0 initState [oAcqA, oRun, oRun]) oUrlDead 0 infoA
    (by decide) (by decide) rfl rfl rfl

/-- C6 (code bug): with an `[azuracast]` block configured, the first
successful session acquisition reaches `new_artist = cfg.channel_name`
(app.py line 181); `AppConfig` defines no `channel_name` field (though the
repository's own tests assert one), so an `AttributeError` escapes
`_monitor_stream` although the shutdown signal was never set; the same
oracle answers without the azuracast block proceed normally into the inner
loop. -/
theorem c6_channel_name_attribute_error :
    (runLoop cfgAz initState [oAcqA]).1.phase = Phase.crashed ∧
    (runLoop cfg0 initState [oAcqA]).1.phase = Phase.inner1 := by decide

/-- Parsed configuration file with every required key present and
`poll_interval = -5`. -/
def negPollData : ConfigData :=
  { platform := some "twitch", channel_url := some "https://example.com",
    poll_interval := some (-5),
    icecast := some { host := some "localhost", port := some 8000,
                      mount := some "/live.mp3", source_user := some "src",
                      source_password := some "pwd" } }

/-- C7 (code bug): `load_config` accepts a configuration whose poll
interval is -5 — it performs no positivity validation, although the
repository's test `test_load_config_negative_poll_interval` requires a
`ValueError`; hence no non-zero exit happens for such a file.  The second
half of the claim does hold: any load failure makes `main` exit with
status 1 before supervision starts. -/
theorem c7_load_config_accepts_negative_poll :
    (load_config negPollData).toOption.map AppConfig.poll_interval =
        some (-5) ∧
    mainExitStatus (load_config negPollData) = none ∧
    (∀ msg : String, mainExitStatus (Except.error msg) = some 1) := by
  refine ⟨by decide, by decide, fun msg => rfl⟩

/-- C8: the metadata synchronization block first reads the remote
now-playing state back, then issues a publish call exactly when the
readback failed or differs from the intended pair — in particular zero
publish calls are issued when the readback already equals the intended
(title, artist), and any publish carries exactly the intended pair. -/
theorem c8_sync_reads_back_and_skips_equal
    (current_meta : Option (String × String)) (new_title new_artist : String) :
    (sync_metadata current_meta new_title new_artist).head? =
        some MetaAction.read ∧
    (MetaAction.update new_title new_artist ∈
        sync_metadata current_meta new_title new_artist ↔
      current_meta ≠ some (new_title, new_artist)) ∧
    (∀ t a, MetaAction.update t a ∈
        sync_metadata current_meta new_title new_artist →
      t = new_title ∧ a = new_artist) := by
  refine ⟨rfl, ?_, ?_⟩
  · cases current_meta with
    | none => simp [sync_metadata, should_update]
    | some m =>
      obtain ⟨t0, a0⟩ := m
      by_cases ht : t0 = new_title <;> by_cases ha : a0 = new_artist <;>
        simp [sync_metadata, should_update, ht, ha]
  · intro t a hmem
    by_cases hb : should_update current_meta new_title new_artist = true
    · simp [sync_metadata, hb] at hmem
      exact hmem
    · simp [sync_metadata, hb] at hmem

/-- C8, instantiated: with a failed readback a publish call is issued. -/
theorem c8_sync_witness :
    MetaAction.update "Title" "Artist" ∈ sync_metadata none "Title" "Artist" :=
  (c8_sync_reads_back_and_skips_equal none "Title" "Artist").2.1.mpr (by decide)

/-- C9: `_cleanup_ffmpeg` never lets an exception escape (for an absent
handle it is a no-op); for every present handle it first requests a
graceful exit, every wait it performs uses the fixed 5-second grace
period, and it escalates to a kill exactly when the terminate request
succeeded but the process did not exit within the grace period. -/
theorem c9_cleanup_never_raises (proc : Option ProcSpec) :
    (cleanup_ffmpeg proc).2 = none ∧
    (∀ p, proc = some p →
      (cleanup_ffmpeg proc).1.head? = some CleanupAct.terminateReq ∧
      ((cleanup_ffmpeg proc).1.all (fun act =>
        match act with
        | CleanupAct.waitGrace t => t == 5
        | _ => true)) = true ∧
      (CleanupAct.killReq ∈ (cleanup_ffmpeg proc).1 ↔
        p.terminate_raises = false ∧ p.exits_within_grace = false)) := by
  cases proc with
  | none =>
    refine ⟨rfl, ?_⟩
    intro p hp
    exact absurd hp (by simp)
  | some q =>
    obtain ⟨tr, eg, kr⟩ := q
    cases tr <;> cases eg <;> cases kr <;>
      exact ⟨rfl, by intro p hp; cases hp; decide⟩

/-- A process that neither fails its terminate request nor exits within
the grace period. -/
def procStubborn : ProcSpec :=
  { terminate_raises := false, exits_within_grace := false,
    kill_raises := false }

/-- C9, instantiated: a handle whose process ignores the grace period is
terminated, waited on for 5 seconds, then killed, with no exception. -/
theorem c9_cleanup_witness :
    (cleanup_ffmpeg (some procStubborn)).2 = none ∧
    (cleanup_ffmpeg (some procStubborn)).1.head? =
      some CleanupAct.terminateReq :=
  ⟨(c9_cleanup_never_raises (some procStubborn)).1,
   ((c9_cleanup_never_raises (some procStubborn)).2 procStubborn rfl).1⟩

/-- C10: `get_stream_info` produces a result only when both the media URL
and the derived title are non-empty; an extraction failure yields `none`;
and for a twitch stream whose description is empty it yields `none` even
when the parsed metadata holds a valid media URL. -/
theorem c10_stream_info_requires_url_and_title (parsed : Option YtInfo)
    (platform : String) :
    (∀ r, get_stream_info parsed platform = some r →
      r.m3u8_url ≠ "" ∧ r.title ≠ "") ∧
    get_stream_info none platform = none ∧
    (∀ info, parsed = some info → platform = "twitch" →
      info.description.getD "" = "" →
      get_stream_info parsed platform = none) := by
  refine ⟨?_, rfl, ?_⟩
  · intro r hr
    cases parsed with
    | none => exact absurd hr (by simp [get_stream_info])
    | some info =>
      simp only [get_stream_info] at hr
      split at hr
      case isTrue hcond =>
        cases hr
        have hsplit : pyTruthy (si_m3u8 info) = true ∧
            ¬(si_title info platform = "") := by simpa using hcond
        exact ⟨pyTruthy_getD _ hsplit.1, hsplit.2⟩
      case isFalse hcond => exact absurd hr (by simp)
  · intro info hp hplat hdesc
    subst hp
    subst hplat
    simp [get_stream_info, si_title, hdesc]

/-- C10, instantiated: a twitch stream with an empty description and a
valid m3u8 format URL yields no stream info. -/
theorem c10_stream_info_witness :
    get_stream_info
      (some { description := some "",
              formats := [{ protocol := some "m3u8",
                            url := some "https://example.com/x.m3u8" }] })
      "twitch" = none :=
  (c10_stream_info_requires_url_and_title _ "twitch").2.2 _ rfl rfl rfl

end Livestream
